import Mathlib

/-!
Verification of the client-side interactivity modules of the Total Care
landing page: the Navigation component (mobile menu state machine, smooth
scrolling, header scroll styling), the ScrollAnimations component
(staggered fade-in reveals), and the App/FormHandler module (active nav
link highlighting and form submission).  Each JavaScript function is
shallowly embedded as a pure Lean function over an explicit state record.
-/

namespace TotalCare

/-! ### Navigation: mobile menu (part_000, lines 82-112, 196-201)

The module keeps a boolean `isMenuOpen` plus cached DOM element handles
`mobileMenu` and `mobileMenuBtn` (which may be `null`).  `updateMenuState`
synchronizes three pieces of DOM state: the `open` class on the menu
panel, the `aria-expanded` attribute on the trigger button, and the body
`overflow` style.  We model the handles by presence booleans and the
touched DOM state by a record. -/

/-- DOM state touched by `updateMenuState`: presence of the `open` class on
the menu panel, the `aria-expanded` attribute string on the trigger button,
and the `overflow` style on `document.body`. -/
structure MenuDom where
  openClass : Bool
  ariaExpanded : String
  bodyOverflow : String
deriving DecidableEq, Repr

/-- The whole state of the Navigation module relevant to the mobile menu:
element presence flags (the cached handles may be null), the module flag
`isMenuOpen`, the module variable `lastScrollY`, and the DOM state. -/
structure NavState where
  mobileMenuPresent : Bool
  mobileMenuBtnPresent : Bool
  isMenuOpen : Bool
  lastScrollY : Nat
  dom : MenuDom
deriving DecidableEq, Repr

/-- `updateMenuState` (part_000 lines 100-112): returns early when the menu
panel or the trigger button handle is null; otherwise writes the three DOM
fields according to `isMenuOpen`. -/
def updateMenuState (s : NavState) : NavState :=
  if s.mobileMenuPresent && s.mobileMenuBtnPresent then
    if s.isMenuOpen then
      { s with dom := ⟨true, "true", "hidden"⟩ }
    else
      { s with dom := ⟨false, "false", ""⟩ }
  else s

/-- `toggleMobileMenu` (part_000 lines 82-85): flips `isMenuOpen`, then
synchronizes the DOM. -/
def toggleMobileMenu (s : NavState) : NavState :=
  updateMenuState { s with isMenuOpen := !s.isMenuOpen }

/-- `closeMobileMenu` (part_000 lines 90-95): forces `isMenuOpen` to false
and synchronizes the DOM, but only when the menu was open. -/
def closeMobileMenu (s : NavState) : NavState :=
  if s.isMenuOpen then updateMenuState { s with isMenuOpen := false } else s

/-- `getState` (part_000 lines 196-201): the observable logical state. -/
def getState (s : NavState) : Bool × Nat :=
  (s.isMenuOpen, s.lastScrollY)

/-- A user action on the mobile menu. -/
inductive MenuAction where
  | toggle
  | close
deriving DecidableEq, Repr

/-- Dispatch one menu action to the code. -/
def stepMenu (s : NavState) : MenuAction → NavState
  | .toggle => toggleMobileMenu s
  | .close => closeMobileMenu s

/-- Replay a finite sequence of menu actions against the code. -/
def runMenu (s : NavState) (acts : List MenuAction) : NavState :=
  acts.foldl stepMenu s

/-- Initial Navigation state on page load: menu closed, closed-state DOM,
both elements present. -/
def navInit : NavState :=
  ⟨true, true, false, 0, ⟨false, "false", ""⟩⟩

/-- Modelled from the spec: the abstract two-state machine of section 4.2 —
`toggle` flips the state, `close` forces `closed`. -/
def specStep (b : Bool) : MenuAction → Bool
  | .toggle => !b
  | .close => false

/-- Modelled from the spec: the DOM state determined by a logical state —
open marker present, `aria-expanded` true and body scroll locked exactly
when the machine is in state `open`. -/
def renderMenu (b : Bool) : MenuDom :=
  if b then ⟨true, "true", "hidden"⟩ else ⟨false, "false", ""⟩

lemma stepMenu_invariant (s : NavState) (a : MenuAction)
    (hm : s.mobileMenuPresent = true) (hb : s.mobileMenuBtnPresent = true)
    (hd : s.dom = renderMenu s.isMenuOpen) :
    (stepMenu s a).mobileMenuPresent = true ∧
    (stepMenu s a).mobileMenuBtnPresent = true ∧
    (stepMenu s a).isMenuOpen = specStep s.isMenuOpen a ∧
    (stepMenu s a).dom = renderMenu (stepMenu s a).isMenuOpen := by
  cases a with
  | toggle =>
    simp [stepMenu, toggleMobileMenu, updateMenuState, specStep, hm, hb, renderMenu]
    cases h : s.isMenuOpen <;> simp
  | close =>
    cases h : s.isMenuOpen with
    | false =>
      simp [stepMenu, closeMobileMenu, h, hm, hb, specStep, hd, renderMenu]
    | true =>
      simp [stepMenu, closeMobileMenu, h, updateMenuState, hm, hb, specStep, renderMenu]

lemma runMenu_invariant (acts : List MenuAction) (s : NavState)
    (hm : s.mobileMenuPresent = true) (hb : s.mobileMenuBtnPresent = true)
    (hd : s.dom = renderMenu s.isMenuOpen) :
    (runMenu s acts).dom = renderMenu (acts.foldl specStep s.isMenuOpen) := by
  induction acts generalizing s with
  | nil => simpa [runMenu]
  | cons a rest ih =>
    obtain ⟨h1, h2, h3, h4⟩ := stepMenu_invariant s a hm hb hd
    simpa [runMenu, List.foldl_cons, h3] using ih (stepMenu s a) h1 h2 h4

/-- Claim C1: for every finite sequence of toggle and close actions from
the initial closed state, the resulting DOM state (open marker, the
`aria-expanded` value, and the body scroll lock) equals the DOM state
determined by the logical state reached by replaying the sequence against
the two-state machine in which toggle flips and close forces closed. -/
theorem c1_menu_refines_two_state_machine (acts : List MenuAction) :
    (runMenu navInit acts).dom = renderMenu (acts.foldl specStep false) := by
  exact runMenu_invariant acts navInit rfl rfl (by simp [navInit, renderMenu])

/-- Claim C10: when the menu panel or the trigger button is absent, a
toggle still flips the internal flag (observable via `getState`) while the
DOM and every other field stay unchanged. -/
theorem c10_toggle_without_elements_flips_flag_only (s : NavState)
    (h : ¬(s.mobileMenuPresent = true ∧ s.mobileMenuBtnPresent = true)) :
    toggleMobileMenu s = { s with isMenuOpen := !s.isMenuOpen } ∧
    getState (toggleMobileMenu s) = (!s.isMenuOpen, s.lastScrollY) ∧
    (toggleMobileMenu s).dom = s.dom ∧
    (toggleMobileMenu s).mobileMenuPresent = s.mobileMenuPresent ∧
    (toggleMobileMenu s).mobileMenuBtnPresent = s.mobileMenuBtnPresent ∧
    (toggleMobileMenu s).lastScrollY = s.lastScrollY := by
  have hp : (s.mobileMenuPresent && s.mobileMenuBtnPresent) = false := by
    cases hm : s.mobileMenuPresent <;> cases hb : s.mobileMenuBtnPresent <;>
      simp_all
  refine ⟨?_, ?_, ?_, ?_, ?_, ?_⟩ <;>
    simp [toggleMobileMenu, updateMenuState, hp, getState]

/-- Witness for C10 at a concrete state with the menu panel absent. -/
theorem c10_toggle_without_elements_flips_flag_only_witness :
    toggleMobileMenu ⟨false, true, false, 7, ⟨false, "false", ""⟩⟩ =
      { mobileMenuPresent := false, mobileMenuBtnPresent := true,
        isMenuOpen := true, lastScrollY := 7,
        dom := ⟨false, "false", ""⟩ } ∧
    getState (toggleMobileMenu ⟨false, true, false, 7, ⟨false, "false", ""⟩⟩) =
      (true, 7) := by
  obtain ⟨h1, h2, -⟩ :=
    c10_toggle_without_elements_flips_flag_only
      ⟨false, true, false, 7, ⟨false, "false", ""⟩⟩ (by simp)
  exact ⟨h1, h2⟩

/-! ### Navigation: header scroll styling (part_000, lines 173-191)

`updateHeaderOnScroll` reads `window.scrollY` and, against the fixed
threshold 100, adds/removes the `shadow-md`, `bg-white/70` and
`bg-white/95` classes on the header. -/

/-- The three header classes manipulated by `updateHeaderOnScroll`. -/
structure HeaderClasses where
  shadowMd : Bool
  bgWhite70 : Bool
  bgWhite95 : Bool
deriving DecidableEq, Repr

/-- The fixed `scrollThreshold` of `updateHeaderOnScroll`. -/
def scrollThreshold : Nat := 100

/-- The elevated/opaque header style: shadow present, opaque background. -/
def elevatedHeader : HeaderClasses := ⟨true, false, true⟩

/-- The flat/translucent header style: no shadow, translucent background. -/
def flatHeader : HeaderClasses := ⟨false, true, false⟩

/-- `updateHeaderOnScroll` (part_000 lines 173-191) as a function of the
current scroll offset and the current header class set. -/
def updateHeaderOnScroll (scrollY : Nat) (_h : HeaderClasses) : HeaderClasses :=
  if scrollY > scrollThreshold then elevatedHeader else flatHeader

/-- Claim C2: for every scroll offset the header update yields the
elevated/opaque style exactly when the offset is strictly greater than
100 and the flat/translucent style otherwise; in particular offsets 0 and
100 give the flat style and offset 150 the elevated style. -/
theorem c2_header_threshold (y : Nat) (h : HeaderClasses) :
    updateHeaderOnScroll y h = (if y > 100 then elevatedHeader else flatHeader) ∧
    elevatedHeader ≠ flatHeader ∧
    updateHeaderOnScroll 0 h = flatHeader ∧
    updateHeaderOnScroll 100 h = flatHeader ∧
    updateHeaderOnScroll 150 h = elevatedHeader := by
  refine ⟨rfl, by decide, ?_, ?_, ?_⟩ <;> rfl

/-! ### ScrollAnimations: stagger delay (scroll-animations.js, lines 53-77)

`getStaggerDelay(element)` computes
`element.parentElement.querySelectorAll('.fade-in')` — all *descendants*
of the parent matching the selector, in document order — and multiplies
the element's index in that list by 100.  We model the DOM as a tree of
elements, each with an id and a flag for the `fade-in` class. -/

/-- A DOM element: an id, whether it carries the `fade-in` class, and its
child elements in document order. -/
inductive Dom where
  | elem (id : Nat) (fadeIn : Bool) (children : List Dom)

/-- The id of an element. -/
def Dom.ident : Dom → Nat
  | .elem i _ _ => i

/-- Whether an element carries the `fade-in` class. -/
def Dom.fade : Dom → Bool
  | .elem _ f _ => f

/-- The child elements of an element. -/
def Dom.childList : Dom → List Dom
  | .elem _ _ cs => cs

mutual

/-- Ids of the elements of a forest matching `.fade-in`, in document
(pre-order) order. -/
def fadeInForest : List Dom → List Nat
  | [] => []
  | c :: cs => fadeInTree c ++ fadeInForest cs

/-- Ids of the elements of a tree matching `.fade-in`, in document
(pre-order) order, the root included. -/
def fadeInTree : Dom → List Nat
  | .elem i f cs => (if f then [i] else []) ++ fadeInForest cs

end

/-- `parent.querySelectorAll('.fade-in')` (scroll-animations.js line 74):
all strict descendants of `parent` matching the selector, in document
order, projected to their ids. -/
def querySelectorAllFadeIn (parent : Dom) : List Nat :=
  fadeInForest parent.childList

/-- `getStaggerDelay` (scroll-animations.js lines 73-77): the element's
index in `parent.querySelectorAll('.fade-in')` times 100 milliseconds. -/
def getStaggerDelay (parent : Dom) (elemId : Nat) : Nat :=
  (querySelectorAllFadeIn parent).indexOf elemId * 100

/-- The element's zero-based index among its siblings (the parent's
children) matching `.fade-in` — the quantity named by the claim. -/
def siblingFadeInIndex (parent : Dom) (elemId : Nat) : Nat :=
  ((parent.childList.filter Dom.fade).map Dom.ident).indexOf elemId

/-- One entry of an intersection-observer callback batch: the target
element's id, the target's parent element, and the intersection flag. -/
structure AnimEntry where
  targetId : Nat
  parent : Dom
  isIntersecting : Bool

/-- The state touched by `handleIntersection`: the set of still-observed
element ids, the scheduled reveal timers as (element id, delay) pairs, and
the ids already carrying the `visible` class. -/
structure AnimState where
  observed : List Nat
  timers : List (Nat × Nat)
  visible : List Nat
deriving DecidableEq, Repr

/-- Processing of a single entry inside `handleIntersection`
(scroll-animations.js lines 54-67): when intersecting, schedule the
`visible` class after the stagger delay and unobserve the target. -/
def processEntry (s : AnimState) (e : AnimEntry) : AnimState :=
  if e.isIntersecting then
    { s with
      timers := s.timers ++ [(e.targetId, getStaggerDelay e.parent e.targetId)],
      observed := s.observed.erase e.targetId }
  else s

/-- `handleIntersection` (scroll-animations.js lines 53-68): process each
entry of the batch in order. -/
def handleIntersection (entries : List AnimEntry) (s : AnimState) : AnimState :=
  entries.foldl processEntry s

/-- A parent whose first fade-in child contains a nested fade-in element:
`elem 0 [elem 1 (fade) [elem 2 (fade)], elem 3 (fade)]`. -/
def nestedFadeParent : Dom :=
  .elem 0 false [.elem 1 true [.elem 2 true []], .elem 3 true []]

/-- Counterexample to C3 as stated: for element 3 under `nestedFadeParent`
the code's delay is 200 ms (index 2 in the document-order list [1, 2, 3]
of fade-in descendants of the parent), while the zero-based index among
its fade-in siblings is 1, so the claimed delay would be 100 ms. -/
theorem c3_counterexample :
    getStaggerDelay nestedFadeParent 3 = 200 ∧
    siblingFadeInIndex nestedFadeParent 3 * 100 = 100 ∧
    getStaggerDelay nestedFadeParent 3 ≠ siblingFadeInIndex nestedFadeParent 3 * 100 := by
  refine ⟨rfl, rfl, by decide⟩

lemma handleIntersection_observed_sublist (entries : List AnimEntry) (s : AnimState) :
    (handleIntersection entries s).observed.Sublist s.observed := by
  induction entries generalizing s with
  | nil => simp [handleIntersection]
  | cons e rest ih =>
    refine List.Sublist.trans (ih (processEntry s e)) ?_
    by_cases h : e.isIntersecting = true <;>
      simp [processEntry, h, List.erase_sublist]

/-- Claim C3 (amended): for every intersecting entry, the scheduled delay
equals the element's zero-based index among the parent's fade-in
*descendants* in document order times 100 ms — which coincides with the
index among its fade-in siblings whenever the parent has no nested
fade-in matches — the element is removed from observation, and no batch
ever re-observes an element. -/
theorem c3_stagger_delay_document_order (e : AnimEntry) (s : AnimState)
    (h : e.isIntersecting = true) :
    (handleIntersection [e] s).timers =
      s.timers ++ [(e.targetId, (querySelectorAllFadeIn e.parent).indexOf e.targetId * 100)] ∧
    (handleIntersection [e] s).observed = s.observed.erase e.targetId ∧
    (∀ entries s2, (handleIntersection entries s2).observed.Sublist s2.observed) ∧
    (querySelectorAllFadeIn e.parent = (e.parent.childList.filter Dom.fade).map Dom.ident →
      getStaggerDelay e.parent e.targetId = siblingFadeInIndex e.parent e.targetId * 100) := by
  refine ⟨?_, ?_, handleIntersection_observed_sublist, ?_⟩
  · simp [handleIntersection, processEntry, h, getStaggerDelay]
  · simp [handleIntersection, processEntry, h]
  · intro hflat
    simp [getStaggerDelay, siblingFadeInIndex, hflat]

/-- Witness for the amended C3 at a flat parent with two fade-in children:
the second child gets delay 100 ms, equal to its sibling index times 100. -/
theorem c3_stagger_delay_document_order_witness :
    (handleIntersection
        [⟨3, .elem 0 false [.elem 1 true [], .elem 3 true []], true⟩]
        ⟨[1, 3], [], []⟩).timers = [(3, 100)] ∧
    (handleIntersection
        [⟨3, .elem 0 false [.elem 1 true [], .elem 3 true []], true⟩]
        ⟨[1, 3], [], []⟩).observed = [1] ∧
    getStaggerDelay (.elem 0 false [.elem 1 true [], .elem 3 true []]) 3 =
      siblingFadeInIndex (.elem 0 false [.elem 1 true [], .elem 3 true []]) 3 * 100 := by
  obtain ⟨h1, h2, -, h4⟩ :=
    c3_stagger_delay_document_order
      ⟨3, .elem 0 false [.elem 1 true [], .elem 3 true []], true⟩
      ⟨[1, 3], [], []⟩ rfl
  refine ⟨by simpa using h1, by simpa using h2, h4 (by decide)⟩

/-! ### Navigation: smooth scrolling (part_000, lines 140-161)

`handleSmoothScroll` reads the clicked link's `href` attribute (possibly
null), and when it is an in-page anchor (`#` prefixed, length > 1) looks
the target up with `document.querySelector`.  We abstract the lookup as a
function from the href to the target's absolute vertical position
(`getBoundingClientRect().top + window.pageYOffset`), `none` when no
element matches. -/

/-- Browser page state touched by the smooth-scroll handler: the vertical
scroll position and the history stack (most recent entry first). -/
structure PageState where
  scrollPos : Int
  history : List String
deriving DecidableEq, Repr

/-- Outcome of a click on an anchor link: whether the handler called
`event.preventDefault()`, and the page state afterwards. -/
structure ClickOutcome where
  defaultPrevented : Bool
  page : PageState
deriving DecidableEq, Repr

/-- The guard `href.startsWith('#') && href.length > 1` of
`handleSmoothScroll` (part_000 line 143): the first character is `#` and at
least one character follows. -/
def isAnchorHref (h : String) : Bool :=
  match h.data with
  | [] => false
  | c :: rest => c = '#' && rest.length > 0

/-- `handleSmoothScroll` (part_000 lines 140-161): for an in-page anchor
whose target exists, suppress default navigation, scroll to the target's
absolute position minus the header height, and push the href onto the
history; otherwise leave everything untouched. -/
def handleSmoothScroll (href : Option String) (query : String → Option Int)
    (headerHeight : Int) (page : PageState) : ClickOutcome :=
  match href with
  | none => ⟨false, page⟩
  | some h =>
    if isAnchorHref h then
      match query h with
      | some top =>
        ⟨true, ⟨top - headerHeight, h :: page.history⟩⟩
      | none => ⟨false, page⟩
    else ⟨false, page⟩

/-- Claim C4: a click on an anchor link with a `#`-prefixed href of length
greater than 1 whose target does not exist performs no default-navigation
suppression and leaves the scroll position and the history unchanged. -/
theorem c4_missing_target_native_jump (h : String) (query : String → Option Int)
    (headerHeight : Int) (page : PageState)
    (hanchor : isAnchorHref h = true)
    (hmiss : query h = none) :
    handleSmoothScroll (some h) query headerHeight page = ⟨false, page⟩ := by
  simp [handleSmoothScroll, hanchor, hmiss]

/-- Witness for C4 at the concrete href `#missing` and an empty page. -/
theorem c4_missing_target_native_jump_witness :
    handleSmoothScroll (some "#missing") (fun _ => none) 80 ⟨250, []⟩ =
      ⟨false, ⟨250, []⟩⟩ := by
  exact c4_missing_target_native_jump "#missing" (fun _ => none) 80 ⟨250, []⟩
    (by decide) rfl

/-- Claim C5: a click on an in-page anchor whose target exists suppresses
default navigation, scrolls to the target's absolute vertical position
minus the header height, and pushes one new history entry for that
anchor. -/
theorem c5_anchor_scroll_and_history (h : String) (query : String → Option Int)
    (headerHeight top : Int) (page : PageState)
    (hanchor : isAnchorHref h = true)
    (hhit : query h = some top) :
    (handleSmoothScroll (some h) query headerHeight page).defaultPrevented = true ∧
    (handleSmoothScroll (some h) query headerHeight page).page.scrollPos =
      top - headerHeight ∧
    (handleSmoothScroll (some h) query headerHeight page).page.history =
      h :: page.history ∧
    (handleSmoothScroll (some h) query headerHeight page).page.history.length =
      page.history.length + 1 := by
  simp [handleSmoothScroll, hanchor, hhit]

/-- Witness for C5 at the concrete href `#services` with target position
900 and header height 80. -/
theorem c5_anchor_scroll_and_history_witness :
    (handleSmoothScroll (some "#services") (fun _ => some 900) 80
      ⟨0, ["#home"]⟩).defaultPrevented = true ∧
    (handleSmoothScroll (some "#services") (fun _ => some 900) 80
      ⟨0, ["#home"]⟩).page.scrollPos = 820 ∧
    (handleSmoothScroll (some "#services") (fun _ => some 900) 80
      ⟨0, ["#home"]⟩).page.history = ["#services", "#home"] := by
  obtain ⟨h1, h2, h3, -⟩ :=
    c5_anchor_scroll_and_history "#services" (fun _ => some 900) 80 900
      ⟨0, ["#home"]⟩ (by decide) rfl
  exact ⟨h1, by simpa using h2, h3⟩

/-! ### FormHandler (main.js, lines 147-217)

`handleSubmit` disables and relabels the submit button, runs the
(simulated) asynchronous submission inside try/catch, shows a success or
error message, and in a `finally` block re-enables the button and sets its
label to the literal `Submit`.  `showMessage` removes the first existing
`.form-message` descendant before appending the new message. -/

/-- The submit button: its `disabled` flag and its text content. -/
structure SubmitButton where
  disabled : Bool
  label : String
deriving DecidableEq, Repr

/-- A form's DOM state: the optional submit button, the field values, and
the `.form-message` elements in document order (success flag, text). -/
structure FormDom where
  btn : Option SubmitButton
  fields : List String
  messages : List (Bool × String)
deriving DecidableEq, Repr

/-- The `if (submitBtn) { ... }` writes to the button in `handleSubmit`. -/
def setBtn (form : FormDom) (d : Bool) (l : String) : FormDom :=
  match form.btn with
  | some _ => { form with btn := some ⟨d, l⟩ }
  | none => form

/-- `showMessage` (main.js lines 199-216): `form.querySelector` finds the
first existing `.form-message` and removes it, then the new message element
is appended after the form content. -/
def showMessage (form : FormDom) (success : Bool) (msg : String) : FormDom :=
  let remaining :=
    match form.messages with
    | [] => []
    | _ :: rest => rest
  { form with messages := remaining ++ [(success, msg)] }

/-- `handleSubmit` (main.js lines 161-194), parameterized by whether the
asynchronous submission operation succeeds or throws: disable and relabel
the button, show the success message and reset the fields on success or
show the error message on failure, and finally re-enable the button with
the literal label `Submit`. -/
def handleSubmit (succeeds : Bool) (form : FormDom) : FormDom :=
  let f1 := setBtn form true "Sending..."
  let f2 :=
    if succeeds then
      let f := showMessage f1 true "Thank you! We\x27ll be in touch soon."
      { f with fields := f.fields.map fun _ => "" }
    else
      showMessage f1 false "Something went wrong. Please try again."
  setBtn f2 false "Submit"

/-- Counterexample to C6 as stated: a form whose submit control originally
reads `Send` ends up relabeled to the fixed literal `Submit`, not to its
original text. -/
theorem c6_counterexample :
    (handleSubmit true ⟨some ⟨false, "Send"⟩, ["x"], []⟩).btn =
      some ⟨false, "Submit"⟩ ∧
    (handleSubmit true ⟨some ⟨false, "Send"⟩, ["x"], []⟩).btn.map SubmitButton.label ≠
      (⟨some ⟨false, "Send"⟩, ["x"], []⟩ : FormDom).btn.map SubmitButton.label := by
  constructor
  · rfl
  · simp [handleSubmit, setBtn, showMessage]

/-- Claim C6 (amended): for every submission of an opted-in form with a
submit control, whether the asynchronous operation succeeds or throws, the
control is afterwards re-enabled and relabeled to the fixed literal
`Submit` — the cleanup runs unconditionally on both paths. -/
theorem c6_cleanup_unconditional (succeeds : Bool) (form : FormDom)
    (h : form.btn.isSome = true) :
    (handleSubmit succeeds form).btn = some ⟨false, "Submit"⟩ := by
  obtain ⟨b, hb⟩ := Option.isSome_iff_exists.mp h
  cases succeeds <;> simp [handleSubmit, setBtn, showMessage, hb]

/-- Witness for the amended C6 on the failure path at a concrete form. -/
theorem c6_cleanup_unconditional_witness :
    (handleSubmit false ⟨some ⟨false, "Submit"⟩, ["a", "b"], []⟩).btn =
      some ⟨false, "Submit"⟩ := by
  exact c6_cleanup_unconditional false ⟨some ⟨false, "Submit"⟩, ["a", "b"], []⟩ rfl

/-- An event affecting a form's message list: a submission path showing a
message via `showMessage`, or a 5-second auto-removal timer firing for the
message element at a given position (removing nothing if it is gone). -/
inductive FormEvent where
  | submitShow (success : Bool) (msg : String)
  | timerFire (idx : Nat)

/-- Apply one form event. -/
def stepForm (form : FormDom) : FormEvent → FormDom
  | .submitShow ok msg => showMessage form ok msg
  | .timerFire i => { form with messages := form.messages.eraseIdx i }

/-- Replay a sequence of form events. -/
def replayForm (form : FormDom) (events : List FormEvent) : FormDom :=
  events.foldl stepForm form

lemma showMessage_length (form : FormDom) (s : Bool) (m : String)
    (h : form.messages.length ≤ 1) :
    (showMessage form s m).messages.length = 1 := by
  cases hm : form.messages with
  | nil => simp [showMessage, hm]
  | cons a rest =>
    have hr : rest.length = 0 := by
      have := hm ▸ h
      simpa using this
    simp [showMessage, hm, List.length_eq_zero.mp hr]

lemma stepForm_length_le (form : FormDom) (ev : FormEvent)
    (h : form.messages.length ≤ 1) :
    (stepForm form ev).messages.length ≤ 1 := by
  cases ev with
  | submitShow ok msg => exact (showMessage_length form ok msg h).le
  | timerFire i =>
    calc (form.messages.eraseIdx i).length ≤ form.messages.length :=
          List.length_eraseIdx_le _ _
      _ ≤ 1 := h

/-- Claim C7: at most one inline message is visible at any time — each
`showMessage` call removes the existing message before appending the new
one, so after any interleaving of submissions and removal timers starting
from at most one visible message (in particular two rapid sequential
submissions), at most one message remains; a single `showMessage` leaves
exactly one. -/
theorem c7_at_most_one_message (form : FormDom) (s : Bool) (m : String)
    (events : List FormEvent) (h : form.messages.length ≤ 1) :
    (showMessage form s m).messages.length = 1 ∧
    (replayForm form events).messages.length ≤ 1 := by
  refine ⟨showMessage_length form s m h, ?_⟩
  induction events generalizing form with
  | nil => simpa [replayForm]
  | cons ev rest ih =>
    simpa [replayForm, List.foldl_cons] using
      ih (stepForm form ev) (stepForm_length_le form ev h)

/-- Witness for C7: two rapid sequential submissions (success then error)
followed by the first timer firing leave exactly one message. -/
theorem c7_at_most_one_message_witness :
    (showMessage ⟨none, [], []⟩ true "ok").messages.length = 1 ∧
    (replayForm ⟨none, [], []⟩
        [.submitShow true "ok", .submitShow false "fail", .timerFire 0]).messages.length ≤ 1 := by
  exact c7_at_most_one_message ⟨none, [], []⟩ true "ok"
    [.submitShow true "ok", .submitShow false "fail", .timerFire 0] (by decide)

/-! ### Navigation: scroll event coalescing (part_000, lines 166-168)

`handleScroll` is `requestAnimationFrame(updateHeaderOnScroll)`: each
scroll event enqueues one fresh animation-frame callback (there is no
pending-flag guard), and at the next rendered frame the browser runs every
queued callback.  We model the callback queue by its length and a frame
boundary by running all queued callbacks at the then-current scroll
offset. -/

/-- The event-loop state for the scroll handler: the number of queued
animation-frame callbacks and the header's classes. -/
structure ScrollLoop where
  rafQueue : Nat
  header : HeaderClasses
deriving DecidableEq, Repr

/-- `handleScroll` (part_000 lines 166-168): enqueue one animation-frame
callback per scroll event. -/
def handleScroll (l : ScrollLoop) : ScrollLoop :=
  { l with rafQueue := l.rafQueue + 1 }

/-- Deliver `n` scroll events within one frame. -/
def deliverScrolls : Nat → ScrollLoop → ScrollLoop
  | 0, l => l
  | n + 1, l => deliverScrolls n (handleScroll l)

/-- Run `n` queued `updateHeaderOnScroll` callbacks at scroll offset `y`. -/
def applyCallbacks : Nat → Nat → HeaderClasses → HeaderClasses
  | 0, _, h => h
  | n + 1, y, h => applyCallbacks n y (updateHeaderOnScroll y h)

/-- A rendered frame: run every queued callback at the current scroll
offset, empty the queue, and report how many recomputations ran. -/
def runFrame (y : Nat) (l : ScrollLoop) : ScrollLoop × Nat :=
  (⟨0, applyCallbacks l.rafQueue y l.header⟩, l.rafQueue)

/-- Counterexample to C8 as stated: two scroll events delivered within a
single frame yield two header style recomputations in the next frame, not
at most one — `requestAnimationFrame` enqueues a fresh callback per event
and nothing deduplicates them. -/
theorem c8_counterexample :
    (runFrame 0 (deliverScrolls 2 ⟨0, flatHeader⟩)).2 = 2 ∧
    ¬((runFrame 0 (deliverScrolls 2 ⟨0, flatHeader⟩)).2 ≤ 1) := by
  refine ⟨rfl, by decide⟩

lemma deliverScrolls_eq (n : Nat) (q : Nat) (h : HeaderClasses) :
    deliverScrolls n ⟨q, h⟩ = ⟨q + n, h⟩ := by
  induction n generalizing q with
  | zero => simp [deliverScrolls]
  | succ k ih =>
    have harith : q + 1 + k = q + (k + 1) := by omega
    calc deliverScrolls (k + 1) ⟨q, h⟩
        = deliverScrolls k ⟨q + 1, h⟩ := rfl
      _ = ⟨q + 1 + k, h⟩ := ih (q + 1)
      _ = ⟨q + (k + 1), h⟩ := by rw [harith]

lemma applyCallbacks_succ (k y : Nat) (h : HeaderClasses) :
    applyCallbacks (k + 1) y h = updateHeaderOnScroll y h := by
  induction k generalizing h with
  | zero => simp [applyCallbacks]
  | succ k ih =>
    calc applyCallbacks (k + 2) y h
        = applyCallbacks (k + 1) y (updateHeaderOnScroll y h) := rfl
      _ = updateHeaderOnScroll y (updateHeaderOnScroll y h) := ih _
      _ = updateHeaderOnScroll y h := rfl

/-- Claim C8 (amended): with an empty callback queue at the frame
boundary, `n` scroll events within one frame cause exactly `n` header
style recomputations in the next frame (one per event, not at most one);
the resulting header style nevertheless equals that of a single
recomputation, because the recomputation is a full replace depending only
on the scroll offset. -/
theorem c8_one_recomputation_per_event (n y : Nat) (h : HeaderClasses)
    (hn : 1 ≤ n) :
    (runFrame y (deliverScrolls n ⟨0, h⟩)).2 = n ∧
    (runFrame y (deliverScrolls n ⟨0, h⟩)).1.header = updateHeaderOnScroll y h := by
  obtain ⟨k, rfl⟩ := Nat.exists_eq_add_of_le hn
  constructor
  · simp [deliverScrolls_eq, runFrame]
  · simp [deliverScrolls_eq, runFrame]
    rw [Nat.add_comm 1 k, applyCallbacks_succ]

/-- Witness for the amended C8 at three scroll events and offset 150. -/
theorem c8_one_recomputation_per_event_witness :
    (runFrame 150 (deliverScrolls 3 ⟨0, flatHeader⟩)).2 = 3 ∧
    (runFrame 150 (deliverScrolls 3 ⟨0, flatHeader⟩)).1.header = elevatedHeader := by
  obtain ⟨h1, h2⟩ := c8_one_recomputation_per_event 3 150 flatHeader (by decide)
  exact ⟨h1, by simpa [updateHeaderOnScroll, scrollThreshold] using h2⟩

/-! ### App: active navigation link (main.js, lines 70-94)

`setActiveNavLink(sectionId, navLinks)` walks every nav link and adds the
`text-primary-dark` class when the link's href equals `#sectionId`, else
removes it — a full replace.  Intersection batches call it once per
intersecting section, in order. -/

/-- A navigation link: its `href` attribute and whether it carries the
`text-primary-dark` active class. -/
structure NavLink where
  href : String
  active : Bool
deriving DecidableEq, Repr

/-- `setActiveNavLink` (main.js lines 85-94). -/
def setActiveNavLink (sectionId : String) (links : List NavLink) : List NavLink :=
  links.map fun link =>
    if link.href = "#" ++ sectionId then { link with active := true }
    else { link with active := false }

/-- The number of links carrying the active class. -/
def countActive (links : List NavLink) : Nat :=
  (links.filter (·.active)).length

/-- The intersection-callback batch (main.js lines 70-77): one
`setActiveNavLink` per intersecting section id, in batch order. -/
def runActiveBatch (links : List NavLink) (ids : List String) : List NavLink :=
  ids.foldl (fun ls i => setActiveNavLink i ls) links

/-- Counterexample to C9 as stated: two nav links sharing the href `#a`
are both marked active by a single update, so two links carry the active
state at once. -/
theorem c9_counterexample :
    countActive (setActiveNavLink "a" [⟨"#a", false⟩, ⟨"#a", false⟩]) = 2 ∧
    ¬(countActive (setActiveNavLink "a" [⟨"#a", false⟩, ⟨"#a", false⟩]) ≤ 1) := by
  refine ⟨rfl, by decide⟩

lemma countActive_cons (l : NavLink) (ls : List NavLink) :
    countActive (l :: ls) = (if l.active then 1 else 0) + countActive ls := by
  by_cases h : l.active = true <;>
    simp [countActive, List.filter_cons, h, Nat.add_comm]

lemma countActive_setActiveNavLink (id : String) (links : List NavLink) :
    countActive (setActiveNavLink id links) =
      (links.map NavLink.href).count ("#" ++ id) := by
  induction links with
  | nil => rfl
  | cons l ls ih =>
    simp only [setActiveNavLink, List.map_cons] at ih ⊢
    rw [countActive_cons, ih]
    by_cases h : l.href = "#" ++ id
    · simp [h, List.count_cons, Nat.add_comm]
    · simp [h, List.count_cons, Ne.symm h]

lemma setActiveNavLink_replace (id id0 : String) (links : List NavLink) :
    setActiveNavLink id (setActiveNavLink id0 links) = setActiveNavLink id links := by
  simp only [setActiveNavLink, List.map_map]
  refine List.map_congr_left fun l _ => ?_
  simp only [Function.comp_apply]
  by_cases h : l.href = "#" ++ id0
  · rw [if_pos h]
  · rw [if_neg h]

lemma runActiveBatch_concat (id : String) (ids : List String) (links : List NavLink) :
    runActiveBatch links (ids ++ [id]) = setActiveNavLink id links := by
  induction ids generalizing links with
  | nil => rfl
  | cons i rest ih =>
    calc runActiveBatch links ((i :: rest) ++ [id])
        = runActiveBatch (setActiveNavLink i links) (rest ++ [id]) := rfl
      _ = setActiveNavLink id (setActiveNavLink i links) := ih _
      _ = setActiveNavLink id links := setActiveNavLink_replace id i links

/-- Claim C9 (amended): an active-link update is a full replace — a link
is active afterwards exactly when its href equals `#` + the section id —
so at most one link is active whenever the nav links have pairwise
distinct hrefs (with duplicate hrefs every duplicate is marked), and the
last update of a batch of intersection events wins outright. -/
theorem c9_active_link_full_replace (id : String) (links : List NavLink)
    (hnodup : (links.map NavLink.href).Nodup) :
    (∀ l ∈ setActiveNavLink id links, l.active = (l.href = "#" ++ id : Bool)) ∧
    countActive (setActiveNavLink id links) ≤ 1 ∧
    (∀ ids : List String,
      runActiveBatch links (ids ++ [id]) = setActiveNavLink id links) := by
  refine ⟨?_, ?_, ?_⟩
  · intro l hl
    obtain ⟨l0, -, rfl⟩ := List.mem_map.mp hl
    by_cases h : l0.href = "#" ++ id <;> simp [h]
  · rw [countActive_setActiveNavLink]
    exact List.nodup_iff_count_le_one.mp hnodup _
  · intro ids
    exact runActiveBatch_concat id ids links

/-- Witness for the amended C9 on three distinct-href links with a
two-event batch ending on `#services`. -/
theorem c9_active_link_full_replace_witness :
    countActive (setActiveNavLink "services"
      [⟨"#home", true⟩, ⟨"#services", false⟩, ⟨"#contact", false⟩]) ≤ 1 ∧
    runActiveBatch
      [⟨"#home", true⟩, ⟨"#services", false⟩, ⟨"#contact", false⟩]
      ["home", "services"] =
      setActiveNavLink "services"
        [⟨"#home", true⟩, ⟨"#services", false⟩, ⟨"#contact", false⟩] := by
  obtain ⟨-, h2, h3⟩ := c9_active_link_full_replace "services"
    [⟨"#home", true⟩, ⟨"#services", false⟩, ⟨"#contact", false⟩] (by decide)
  exact ⟨h2, h3 ["home"]⟩

end TotalCare
